import Mathlib

/-!
Verification development for the `autork` duel-game engine
(`src/autork/engine.py`, `src/autork/config.py`).

The Python code is shallowly embedded: player and match state become
structures over `Int` (Python integers), configuration parameters become
`Nat` fields (the configuration is a flat set of validated non-negative
integers, see `config.py`), and every `while` loop becomes a fuel-indexed
recursive function whose fuel provably bounds the loop's iteration count
on the states the engine reaches (the bound is noted at each definition).
Python names are kept; the leading underscore of private helpers such as
`_refund_attack` is dropped because Lean identifiers starting with an
underscore are reserved for inaccessible names.
-/

namespace Autork

/-- `GameSettings` from `config.py`, with the default values of that file. -/
structure GameSettings where
  MAX_TURNS : Nat := 200
  START_GOLD : Nat := 50
  START_TERRITORY : Nat := 30
  NEUTRAL_TERRITORY : Nat := 40
  START_ATTACK : Nat := 0
  START_DEFENSE : Nat := 0
  GOLD_PER_LAND : Nat := 1
  EXPAND_BASE : Nat := 10
  EXPAND_STEP : Nat := 1
  ATK_BASE : Nat := 20
  ATK_K : Nat := 1
  DEF_BASE : Nat := 9
  DEF_K : Nat := 3
  MAINT_ATK : Nat := 4
  MAINT_DEF : Nat := 1
  SCOUT_COST : Nat := 20
deriving Repr, DecidableEq

/-- `PlayerState` from `engine.py`: the mutable per-player record. -/
structure PlayerState where
  gold : Int
  territory : Int
  attack : Int
  defense : Int
  expanded_total : Int
  pending_expands : Int
  has_enemy_intel : Bool
deriving Repr, DecidableEq

/-- `PlayerState.__init__`: starting values taken from the settings object. -/
def PlayerState.init (cfg : GameSettings) : PlayerState where
  gold := cfg.START_GOLD
  territory := cfg.START_TERRITORY
  attack := cfg.START_ATTACK
  defense := cfg.START_DEFENSE
  expanded_total := 0
  pending_expands := 0
  has_enemy_intel := false

/-- `PlayerState.income`. -/
def PlayerState.income (p : PlayerState) (cfg : GameSettings) : Int :=
  p.territory * (cfg.GOLD_PER_LAND : Int)

/-- `PlayerState.upkeep_cost`. -/
def PlayerState.upkeep_cost (p : PlayerState) (cfg : GameSettings) : Int :=
  p.attack * (cfg.MAINT_ATK : Int) + p.defense * (cfg.MAINT_DEF : Int)

/-- The `while deficit > 0 and (self.attack or self.defense)` loop of
`PlayerState.apply_upkeep`.  One unit (attack preferred) is disbanded per
iteration, so `attack + defense` bounds the iteration count: that is the
fuel the caller passes.  Returns `(gold, attack, defense)`. -/
def upkeep_loop (cfg : GameSettings) : Nat → Int → Int → Int → Int → Int × Int × Int
  | 0, _, gold, attack, defense => (gold, attack, defense)
  | fuel + 1, deficit, gold, attack, defense =>
    if deficit > 0 ∧ (attack ≠ 0 ∨ defense ≠ 0) then
      if attack ≠ 0 then
        upkeep_loop cfg fuel (deficit - (cfg.MAINT_ATK : Int))
          (gold + (cfg.MAINT_ATK : Int)) (attack - 1) defense
      else
        upkeep_loop cfg fuel (deficit - (cfg.MAINT_DEF : Int))
          (gold + (cfg.MAINT_DEF : Int)) attack (defense - 1)
    else (gold, attack, defense)

/-- `PlayerState.apply_upkeep`: deduct upkeep; on deficit force-liquidate
attack units first, then defense units, then clamp gold at zero. -/
def PlayerState.apply_upkeep (p : PlayerState) (cfg : GameSettings) : PlayerState :=
  let gold := p.gold - p.upkeep_cost cfg
  if gold ≥ 0 then { p with gold := gold }
  else
    let deficit := -gold
    let r := upkeep_loop cfg (p.attack + p.defense).toNat deficit gold p.attack p.defense
    { p with gold := if r.1 < 0 then 0 else r.1, attack := r.2.1, defense := r.2.2 }

/-- `PlayerState.expand_price`: price of the next cell given `extra` cells
already requested this turn. -/
def PlayerState.expand_price (p : PlayerState) (cfg : GameSettings) (extra : Int) : Int :=
  (cfg.EXPAND_BASE : Int) + (cfg.EXPAND_STEP : Int) * (p.expanded_total + extra)

/-- The `while bought < wanted` loop of `pay_for_expands`; `remaining`
counts `wanted - bought`, so the recursion is exactly the loop.
Returns `(bought, gold)`. -/
def pay_loop (cfg : GameSettings) (expandedTotal : Int) :
    Nat → Nat → Int → Nat × Int
  | 0, bought, gold => (bought, gold)
  | remaining + 1, bought, gold =>
    let cost := (cfg.EXPAND_BASE : Int) + (cfg.EXPAND_STEP : Int) * (expandedTotal + bought)
    if gold < cost then (bought, gold)
    else pay_loop cfg expandedTotal remaining (bought + 1) (gold - cost)

/-- `PlayerState.pay_for_expands`: buy up to `wanted` cells at the dynamic
price, paying immediately; record the number paid for as the pending bid. -/
def PlayerState.pay_for_expands (p : PlayerState) (cfg : GameSettings) (wanted : Int) :
    PlayerState × Nat :=
  let r := pay_loop cfg p.expanded_total wanted.toNat 0 p.gold
  ({ p with gold := r.2, pending_expands := (r.1 : Int) }, r.1)

/-- `PlayerState._attack_price` (dynamic price of the next attack unit). -/
def attack_price (cfg : GameSettings) (attack : Int) : Int :=
  (cfg.ATK_BASE : Int) + (cfg.ATK_K : Int) * attack

/-- `PlayerState._defense_price`. -/
def defense_price (cfg : GameSettings) (defense : Int) : Int :=
  (cfg.DEF_BASE : Int) + (cfg.DEF_K : Int) * defense

/-- The `while gold_limit - spent >= price` loop of `buy_attack`.  With the
validated configuration every unit costs at least `ATK_BASE ≥ 1`, so the
loop buys at most `gold_limit` units; the caller passes fuel
`gold_limit.toNat + 1`, enough for the guard to fail before fuel runs out.
Returns `(attack, spent)`. -/
def buy_attack_loop (cfg : GameSettings) : Nat → Int → Int → Int → Int × Int
  | 0, attack, spent, _ => (attack, spent)
  | fuel + 1, attack, spent, goldLimit =>
    if goldLimit - spent ≥ attack_price cfg attack then
      buy_attack_loop cfg fuel (attack + 1) (spent + attack_price cfg attack) goldLimit
    else (attack, spent)

/-- `PlayerState.buy_attack`: greedily convert up to `goldLimit` gold into
attack units; returns the updated player and the amount spent. -/
def PlayerState.buy_attack (p : PlayerState) (cfg : GameSettings) (goldLimit : Int) :
    PlayerState × Int :=
  let r := buy_attack_loop cfg (goldLimit.toNat + 1) p.attack 0 goldLimit
  ({ p with attack := r.1, gold := p.gold - r.2 }, r.2)

/-- The buying loop of `buy_defense`; fuel as in `buy_attack_loop`. -/
def buy_defense_loop (cfg : GameSettings) : Nat → Int → Int → Int → Int × Int
  | 0, defense, spent, _ => (defense, spent)
  | fuel + 1, defense, spent, goldLimit =>
    if goldLimit - spent ≥ defense_price cfg defense then
      buy_defense_loop cfg fuel (defense + 1) (spent + defense_price cfg defense) goldLimit
    else (defense, spent)

/-- `PlayerState.buy_defense`. -/
def PlayerState.buy_defense (p : PlayerState) (cfg : GameSettings) (goldLimit : Int) :
    PlayerState × Int :=
  let r := buy_defense_loop cfg (goldLimit.toNat + 1) p.defense 0 goldLimit
  ({ p with defense := r.1, gold := p.gold - r.2 }, r.2)

/-- `PlayerState._refund_attack`: sell `units` attack units (clamped to the
units actually held, and to zero from below) at half the base price each. -/
def PlayerState.refund_attack (p : PlayerState) (cfg : GameSettings) (units : Int) :
    PlayerState × Int :=
  let u := max 0 (min units p.attack)
  let refund := u * ((cfg.ATK_BASE / 2 : Nat) : Int)
  ({ p with attack := p.attack - u, gold := p.gold + refund }, refund)

/-- `PlayerState._refund_defense`. -/
def PlayerState.refund_defense (p : PlayerState) (cfg : GameSettings) (units : Int) :
    PlayerState × Int :=
  let u := max 0 (min units p.defense)
  let refund := u * ((cfg.DEF_BASE / 2 : Nat) : Int)
  ({ p with defense := p.defense - u, gold := p.gold + refund }, refund)

/-- One player's slice of a history snapshot (`Engine._record_snapshot`). -/
structure PlayerSnapshot where
  territory : Int
  gold : Int
  attack : Int
  defense : Int
deriving Repr, DecidableEq

/-- One entry of `Engine.history`. -/
structure Snapshot where
  turn : Nat
  neutral : Int
  p1 : PlayerSnapshot
  p2 : PlayerSnapshot
deriving Repr, DecidableEq

/-- The engine's mutable match state (`Engine.turn`, `Engine.neutral_territory`,
`Engine.p1`, `Engine.p2`, `Engine.history`). -/
structure MatchState where
  turn : Nat
  neutral_territory : Int
  p1 : PlayerState
  p2 : PlayerState
  history : List Snapshot
deriving Repr, DecidableEq

/-- The snapshot value built by `Engine._record_snapshot`. -/
def snapshot_of (s : MatchState) : Snapshot where
  turn := s.turn
  neutral := s.neutral_territory
  p1 := ⟨s.p1.territory, s.p1.gold, s.p1.attack, s.p1.defense⟩
  p2 := ⟨s.p2.territory, s.p2.gold, s.p2.attack, s.p2.defense⟩

/-- `Engine._record_snapshot`: append the current snapshot to the history. -/
def record_snapshot (s : MatchState) : MatchState :=
  { s with history := s.history ++ [snapshot_of s] }

/-- `Engine.reset`: fresh players, full neutral pool, empty history plus the
initial (turn 0) snapshot. -/
def Engine.reset (cfg : GameSettings) : MatchState :=
  record_snapshot
    { turn := 0
      neutral_territory := (cfg.NEUTRAL_TERRITORY : Int)
      p1 := PlayerState.init cfg
      p2 := PlayerState.init cfg
      history := [] }

/-- `Engine._allocate_neutral`: resolve the two pending expansion bids
against the neutral pool — contested cells stay neutral, the rest is
granted A-first, and both bids are cleared. -/
def allocate_neutral (s : MatchState) : MatchState :=
  let a1 := s.p1.pending_expands
  let a2 := s.p2.pending_expands
  let N := s.neutral_territory
  let contested := min a1 (min a2 N)
  let remaining0 := N - contested
  let r1_unique := a1 - contested
  let r2_unique := a2 - contested
  let give1 := min r1_unique remaining0
  let remaining1 := remaining0 - give1
  let give2 := min r2_unique remaining1
  let remaining2 := remaining1 - give2
  { s with
    p1 := { s.p1 with
      territory := s.p1.territory + give1
      expanded_total := s.p1.expanded_total + give1
      pending_expands := 0 }
    p2 := { s.p2 with
      territory := s.p2.territory + give2
      expanded_total := s.p2.expanded_total + give2
      pending_expands := 0 }
    neutral_territory := remaining2 + contested }

/-- `Engine._resolve_combat`: simultaneous damage, territory loss clamped at
zero, all lost cells returned to the neutral pool. -/
def resolve_combat (s : MatchState) : MatchState :=
  let dmg12 := max 0 (s.p1.attack - s.p2.defense)
  let dmg21 := max 0 (s.p2.attack - s.p1.defense)
  let loss1 := min dmg21 s.p1.territory
  let loss2 := min dmg12 s.p2.territory
  { s with
    p1 := { s.p1 with territory := s.p1.territory - loss1 }
    p2 := { s.p2 with territory := s.p2.territory - loss2 }
    neutral_territory := s.neutral_territory + loss1 + loss2 }

/-- `Engine._check_winner`: territory elimination first, then (only when
`is_end`) the gold tiebreak. -/
def check_winner (s : MatchState) (is_end : Bool) : Option String :=
  if s.p1.territory = 0 ∧ s.p2.territory = 0 then some "draw"
  else if s.p1.territory = 0 then some "player2"
  else if s.p2.territory = 0 then some "player1"
  else if is_end then
    if s.p1.gold = s.p2.gold then some "draw"
    else if s.p1.gold > s.p2.gold then some "player1"
    else some "player2"
  else none

/-- A strategy command (`Command = Dict[str, Any]`): the recognized fields of
`Engine._apply_commands`, with Python's `.get(key, 0)` / `.get("scout", False)`
defaults; unrecognized keys only produce a trace line and are not modelled. -/
structure Command where
  sell_attack : Int := 0
  sell_defense : Int := 0
  expand : Int := 0
  spend_attack : Int := 0
  spend_defense : Int := 0
  scout : Bool := false
deriving Repr, DecidableEq

/-- `Engine._apply_commands` as a function of one player's state: sales,
then the expansion bid, then scouting, then attack and defense spending.
Only `player` is read and written — the neutral pool and the other player
are untouched, which is the basis of the order-independence property. -/
def apply_commands (cfg : GameSettings) (p : PlayerState) (cmd : Command) : PlayerState :=
  let sellAtk := max 0 cmd.sell_attack
  let p := if sellAtk ≠ 0 then (p.refund_attack cfg sellAtk).1 else p
  let sellDef := max 0 cmd.sell_defense
  let p := if sellDef ≠ 0 then (p.refund_defense cfg sellDef).1 else p
  let wantExpand := max 0 cmd.expand
  let p := (p.pay_for_expands cfg wantExpand).1
  let p :=
    if cmd.scout then
      if p.gold ≥ (cfg.SCOUT_COST : Int) then { p with gold := p.gold - (cfg.SCOUT_COST : Int) }
      else p
    else p
  let atkSpend := min (max 0 cmd.spend_attack) p.gold
  let p := (p.buy_attack cfg atkSpend).1
  let defSpend := min (max 0 cmd.spend_defense) p.gold
  let p := (p.buy_defense cfg defSpend).1
  p

/-- The price dictionary built at the top of `Engine._prepare_obs`. -/
structure Prices where
  expand_next : Int
  buy_attack : Int
  buy_defense : Int
  scout : Int
deriving Repr, DecidableEq

/-- The `my` sub-dictionary of an observation (also reused for the enemy's
private attributes, which are exactly gold/attack/defense). -/
structure OwnView where
  gold : Int
  territory : Int
  attack : Int
  defense : Int
deriving Repr, DecidableEq

/-- An observation (`Engine._prepare_obs`): the enemy's gold/attack/defense
sub-record is present exactly when the observer holds intel. -/
structure Observation where
  turn : Nat
  my : OwnView
  enemy_territory : Int
  enemy_private : Option (Int × Int × Int)
  neutral_territory : Int
  prices : Prices
  gold_limit : Int
deriving Repr, DecidableEq

/-- `Engine._prepare_obs` for observer `me` against `enemy`. -/
def prepare_obs (cfg : GameSettings) (turn : Nat) (neutral : Int)
    (me enemy : PlayerState) : Observation :=
  { turn := turn
    my := ⟨me.gold, me.territory, me.attack, me.defense⟩
    enemy_territory := enemy.territory
    enemy_private :=
      if me.has_enemy_intel then some (enemy.gold, enemy.attack, enemy.defense) else none
    neutral_territory := neutral
    prices :=
      { expand_next := me.expand_price cfg 0
        buy_attack := attack_price cfg me.attack
        buy_defense := defense_price cfg me.defense
        scout := (cfg.SCOUT_COST : Int) }
    gold_limit := me.gold }

/-- `Engine._observation`: the observation handed to player `pid`'s
strategy (`pid` is 1 or 2). -/
def observation (cfg : GameSettings) (s : MatchState) (pid : Nat) : Observation :=
  if pid = 1 then prepare_obs cfg s.turn s.neutral_territory s.p1 s.p2
  else prepare_obs cfg s.turn s.neutral_territory s.p2 s.p1

/-- The possible outcomes of calling `strategy.step(obs)` in Python: a dict
(the command), a non-mapping return value, or a raised exception. -/
inductive StepOutcome where
  | ok : Command → StepOutcome
  | nonMapping : StepOutcome
  | raises : StepOutcome
deriving Repr, DecidableEq

/-- A policy object (the `Strategy` contract of `strategy.py`): `reset` is
called once per match with an initial observation and may raise — modelled
by `reset_ok` answering `false` — and `step` is modelled by the outcome it
produces for each turn number and observation.  This covers every Python
strategy object, stateful or not: along any concrete run, turn numbers are
distinct, so the strategy's successive answers are some such function. -/
structure Policy where
  reset_ok : Observation → Bool
  step : Nat → Observation → StepOutcome

/-- `Engine._safe_step`: a non-dict return raises `TypeError`, and every
exception is caught and turned into the empty command. -/
def safe_step (r : StepOutcome) : Command :=
  match r with
  | .ok c => c
  | .nonMapping => {}
  | .raises => {}

/-- `Engine._play_turn`: (1) economy and upkeep for both players, (2)
observations, (3) the two isolated policy invocations and command
application for both players, (4) neutral allocation, (5) combat, (6) the
intel-flag update taken from the raw commands.  Note that no history
snapshot is appended anywhere in this sequence — see the history theorems
below. -/
def play_turn (cfg : GameSettings) (pol1 pol2 : Policy) (s : MatchState) : MatchState :=
  let p1 := ({ s.p1 with gold := s.p1.gold + s.p1.income cfg } : PlayerState).apply_upkeep cfg
  let p2 := ({ s.p2 with gold := s.p2.gold + s.p2.income cfg } : PlayerState).apply_upkeep cfg
  let obs1 := prepare_obs cfg s.turn s.neutral_territory p1 p2
  let obs2 := prepare_obs cfg s.turn s.neutral_territory p2 p1
  let cmd1 := safe_step (pol1.step s.turn obs1)
  let cmd2 := safe_step (pol2.step s.turn obs2)
  let p1 := apply_commands cfg p1 cmd1
  let p2 := apply_commands cfg p2 cmd2
  let s := resolve_combat (allocate_neutral { s with p1 := p1, p2 := p2 })
  { s with
    p1 := { s.p1 with has_enemy_intel := cmd1.scout }
    p2 := { s.p2 with has_enemy_intel := cmd2.scout } }

/-- The `while self.turn < self.cfg.MAX_TURNS` loop of `Engine.run`.  Each
iteration increments `turn` by one and `play_turn` never changes `turn`,
so fuel `MAX_TURNS` makes the recursion exactly the loop (the base
`Engine._handle_gui_events` always answers `True`). -/
def run_loop (cfg : GameSettings) (pol1 pol2 : Policy) : Nat → MatchState → MatchState
  | 0, s => s
  | fuel + 1, s =>
    if s.turn < cfg.MAX_TURNS then
      let s := play_turn cfg pol1 pol2 { s with turn := s.turn + 1 }
      if (check_winner s false).isSome then s else run_loop cfg pol1 pol2 fuel s
    else s

/-- The result record built by `Engine._result`. -/
structure MatchResult where
  winner : Option String
  turns : Nat
  neutral : Int
  p1 : PlayerSnapshot
  p2 : PlayerSnapshot
deriving Repr, DecidableEq

/-- `Engine._result`. -/
def Engine.result (s : MatchState) (is_end : Bool) : MatchResult where
  winner := check_winner s is_end
  turns := s.turn
  neutral := s.neutral_territory
  p1 := ⟨s.p1.territory, s.p1.gold, s.p1.attack, s.p1.defense⟩
  p2 := ⟨s.p2.territory, s.p2.gold, s.p2.attack, s.p2.defense⟩

/-- `Engine.run`: reset, then the two strategy `reset` calls — these are
**unguarded** (the only `try/except` in the engine is inside `_safe_step`,
which wraps `step` only), so an exception raised by either `reset`
propagates out of `run` and no result is produced, modelled by
`Except.error`; `s2.reset` is not reached when `s1.reset` raises.
Otherwise: play turns until a winner is declared or the turn budget is
exhausted, then build the final result with `is_end=True`. -/
def Engine.run (cfg : GameSettings) (pol1 pol2 : Policy) : Except Unit MatchResult :=
  let s := Engine.reset cfg
  if pol1.reset_ok (observation cfg s 1) then
    if pol2.reset_ok (observation cfg s 2) then
      Except.ok (Engine.result (run_loop cfg pol1 pol2 cfg.MAX_TURNS s) true)
    else Except.error ()
  else Except.error ()

/-- Applying player 1's command first, then player 2's, as `_play_turn`
step 3 does. -/
def apply_both_p1_first (cfg : GameSettings) (s : MatchState) (cmd1 cmd2 : Command) :
    MatchState :=
  let s := { s with p1 := apply_commands cfg s.p1 cmd1 }
  { s with p2 := apply_commands cfg s.p2 cmd2 }

/-- The same two command applications in the opposite order. -/
def apply_both_p2_first (cfg : GameSettings) (s : MatchState) (cmd1 cmd2 : Command) :
    MatchState :=
  let s := { s with p2 := apply_commands cfg s.p2 cmd2 }
  { s with p1 := apply_commands cfg s.p1 cmd1 }

/-- A command with every numeric field clamped at zero from below, which is
how `_apply_commands` reads the raw fields (`max(0, int(...))`). -/
def Command.sanitized (cmd : Command) : Command where
  sell_attack := max 0 cmd.sell_attack
  sell_defense := max 0 cmd.sell_defense
  expand := max 0 cmd.expand
  spend_attack := max 0 cmd.spend_attack
  spend_defense := max 0 cmd.spend_defense
  scout := cmd.scout

/-! ### Sample states used to instantiate the theorems with hypotheses -/

/-- The default configuration of `config.py`. -/
def cfg0 : GameSettings := {}

/-- A fresh player under the default configuration. -/
def player0 : PlayerState := PlayerState.init cfg0

/-- A mid-game state with two pending bids of 3 against a pool of 5
(the contested-bid scenario of `test_allocate_neutral_contested`). -/
def sAlloc : MatchState where
  turn := 1
  neutral_territory := 5
  p1 := { player0 with pending_expands := 3 }
  p2 := { player0 with pending_expands := 3 }
  history := []

/-- The combat scenario of `test_resolve_combat_shift_territory`:
attack 12 / defense 5 versus attack 5 / defense 10, 30 cells each. -/
def sCombat : MatchState where
  turn := 1
  neutral_territory := 0
  p1 := { player0 with attack := 12, defense := 5 }
  p2 := { player0 with attack := 5, defense := 10 }
  history := []

/-- The forced-timeout scenario: gold 100 versus 50, both territories 30. -/
def sGold : MatchState where
  turn := 200
  neutral_territory := 0
  p1 := { player0 with gold := 100 }
  p2 := { player0 with gold := 50 }
  history := []

/-- The upkeep scenario of `test_upkeep_auto_demobilise`: gold 2, attack 3,
defense 2 (upkeep 14 forces liquidation of all attack units). -/
def pUpkeep : PlayerState := { player0 with gold := 2, attack := 3, defense := 2 }

/-- A policy that requests scouting every turn and nothing else; its
`reset` returns normally. -/
def scoutPolicy : Policy where
  reset_ok := fun _ => true
  step := fun _ _ => StepOutcome.ok { scout := true }

/-- A policy that raises on every call: `reset` raises, and every `step`
call raises too. -/
def crashPolicy : Policy where
  reset_ok := fun _ => false
  step := fun _ _ => StepOutcome.raises

/-- A state in which both players are too poor to scout even after income:
gold 0 and territory 5 give 5 gold at the start of the turn, below the
scout cost of 20. -/
def sPoor : MatchState where
  turn := 1
  neutral_territory := 40
  p1 := { player0 with gold := 0, territory := 5 }
  p2 := { player0 with gold := 0, territory := 5 }
  history := []

/-- A command whose numeric fields are all negative, for the sanitization
witness. -/
def cmdNeg : Command where
  sell_attack := -2
  sell_defense := -1
  expand := -3
  spend_attack := -4
  spend_defense := -5
  scout := false

/-! ### Neutral allocation -/

/-- Claim C1: for non-negative bids and pool, `_allocate_neutral` conserves
the total cell count across the two territories and the neutral pool, and
the contested cells `min(a, b, N)` never leave the neutral pool: the final
pool is at least `min(a, b, N)`. -/
theorem allocate_neutral_conserves (s : MatchState)
    (ha : 0 ≤ s.p1.pending_expands) (hb : 0 ≤ s.p2.pending_expands)
    (hN : 0 ≤ s.neutral_territory) :
    (allocate_neutral s).p1.territory + (allocate_neutral s).p2.territory +
        (allocate_neutral s).neutral_territory =
      s.p1.territory + s.p2.territory + s.neutral_territory ∧
    min s.p1.pending_expands (min s.p2.pending_expands s.neutral_territory) ≤
      (allocate_neutral s).neutral_territory := by
  simp only [allocate_neutral]
  constructor <;> omega

/-- Witness for C1 at the contested scenario (bids 3 and 3, pool 5). -/
theorem allocate_neutral_conserves_witness :
    0 ≤ sAlloc.p1.pending_expands ∧ 0 ≤ sAlloc.p2.pending_expands ∧
    0 ≤ sAlloc.neutral_territory ∧
    ((allocate_neutral sAlloc).p1.territory + (allocate_neutral sAlloc).p2.territory +
        (allocate_neutral sAlloc).neutral_territory =
      sAlloc.p1.territory + sAlloc.p2.territory + sAlloc.neutral_territory ∧
    min sAlloc.p1.pending_expands (min sAlloc.p2.pending_expands sAlloc.neutral_territory) ≤
      (allocate_neutral sAlloc).neutral_territory) :=
  ⟨by decide, by decide, by decide,
   allocate_neutral_conserves sAlloc (by decide) (by decide) (by decide)⟩

/-- Claim C7: `_allocate_neutral` grants exactly
`min(a - contested, N - contested)` to player 1, then
`min(b - contested, N - contested - give1)` to player 2 (player 1 is served
first), each grant raises both `territory` and `expanded_total` by the
granted amount, and both pending bids are reset to zero. -/
theorem allocate_neutral_grants (s : MatchState) :
    (allocate_neutral s).p1.territory =
      s.p1.territory +
        min (s.p1.pending_expands -
              min s.p1.pending_expands (min s.p2.pending_expands s.neutral_territory))
            (s.neutral_territory -
              min s.p1.pending_expands (min s.p2.pending_expands s.neutral_territory)) ∧
    (allocate_neutral s).p1.expanded_total =
      s.p1.expanded_total +
        min (s.p1.pending_expands -
              min s.p1.pending_expands (min s.p2.pending_expands s.neutral_territory))
            (s.neutral_territory -
              min s.p1.pending_expands (min s.p2.pending_expands s.neutral_territory)) ∧
    (allocate_neutral s).p2.territory =
      s.p2.territory +
        min (s.p2.pending_expands -
              min s.p1.pending_expands (min s.p2.pending_expands s.neutral_territory))
            (s.neutral_territory -
              min s.p1.pending_expands (min s.p2.pending_expands s.neutral_territory) -
              min (s.p1.pending_expands -
                    min s.p1.pending_expands (min s.p2.pending_expands s.neutral_territory))
                  (s.neutral_territory -
                    min s.p1.pending_expands (min s.p2.pending_expands s.neutral_territory))) ∧
    (allocate_neutral s).p2.expanded_total =
      s.p2.expanded_total +
        min (s.p2.pending_expands -
              min s.p1.pending_expands (min s.p2.pending_expands s.neutral_territory))
            (s.neutral_territory -
              min s.p1.pending_expands (min s.p2.pending_expands s.neutral_territory) -
              min (s.p1.pending_expands -
                    min s.p1.pending_expands (min s.p2.pending_expands s.neutral_territory))
                  (s.neutral_territory -
                    min s.p1.pending_expands (min s.p2.pending_expands s.neutral_territory))) ∧
    (allocate_neutral s).p1.pending_expands = 0 ∧
    (allocate_neutral s).p2.pending_expands = 0 := by
  simp only [allocate_neutral]
  refine ⟨?_, ?_, ?_, ?_, ?_, ?_⟩ <;> trivial

/-! ### Combat -/

/-- Claim C2: `_resolve_combat` computes both damages from pre-combat values
(`max(0, attack - defense)` each way), each territory loss is
`min(damage, territory)` so territory stays non-negative, every lost cell
goes to the neutral pool (none to the opponent), attack and defense are
unchanged, and the total cell count is conserved. -/
theorem resolve_combat_spec (s : MatchState)
    (h1 : 0 ≤ s.p1.territory) (h2 : 0 ≤ s.p2.territory) :
    (resolve_combat s).p2.territory =
      s.p2.territory - min (max 0 (s.p1.attack - s.p2.defense)) s.p2.territory ∧
    (resolve_combat s).p1.territory =
      s.p1.territory - min (max 0 (s.p2.attack - s.p1.defense)) s.p1.territory ∧
    0 ≤ (resolve_combat s).p1.territory ∧
    0 ≤ (resolve_combat s).p2.territory ∧
    (resolve_combat s).neutral_territory =
      s.neutral_territory + min (max 0 (s.p2.attack - s.p1.defense)) s.p1.territory +
        min (max 0 (s.p1.attack - s.p2.defense)) s.p2.territory ∧
    (resolve_combat s).p1.attack = s.p1.attack ∧
    (resolve_combat s).p1.defense = s.p1.defense ∧
    (resolve_combat s).p2.attack = s.p2.attack ∧
    (resolve_combat s).p2.defense = s.p2.defense ∧
    (resolve_combat s).p1.territory + (resolve_combat s).p2.territory +
        (resolve_combat s).neutral_territory =
      s.p1.territory + s.p2.territory + s.neutral_territory := by
  simp only [resolve_combat]
  refine ⟨?_, ?_, ?_, ?_, ?_, ?_, ?_, ?_, ?_, ?_⟩ <;> first | trivial | omega

/-- Witness for C2 at the scenario 12/5 versus 5/10 with 30 cells each. -/
theorem resolve_combat_spec_witness :
    0 ≤ sCombat.p1.territory ∧ 0 ≤ sCombat.p2.territory ∧
    ((resolve_combat sCombat).p2.territory =
      sCombat.p2.territory -
        min (max 0 (sCombat.p1.attack - sCombat.p2.defense)) sCombat.p2.territory ∧
    (resolve_combat sCombat).p1.territory =
      sCombat.p1.territory -
        min (max 0 (sCombat.p2.attack - sCombat.p1.defense)) sCombat.p1.territory ∧
    0 ≤ (resolve_combat sCombat).p1.territory ∧
    0 ≤ (resolve_combat sCombat).p2.territory ∧
    (resolve_combat sCombat).neutral_territory =
      sCombat.neutral_territory +
        min (max 0 (sCombat.p2.attack - sCombat.p1.defense)) sCombat.p1.territory +
        min (max 0 (sCombat.p1.attack - sCombat.p2.defense)) sCombat.p2.territory ∧
    (resolve_combat sCombat).p1.attack = sCombat.p1.attack ∧
    (resolve_combat sCombat).p1.defense = sCombat.p1.defense ∧
    (resolve_combat sCombat).p2.attack = sCombat.p2.attack ∧
    (resolve_combat sCombat).p2.defense = sCombat.p2.defense ∧
    (resolve_combat sCombat).p1.territory + (resolve_combat sCombat).p2.territory +
        (resolve_combat sCombat).neutral_territory =
      sCombat.p1.territory + sCombat.p2.territory + sCombat.neutral_territory) :=
  ⟨by decide, by decide, resolve_combat_spec sCombat (by decide) (by decide)⟩

/-! ### Winner determination -/

/-- Claim C8: `_check_winner` yields `draw` when both territories are zero,
the surviving side when exactly one is zero, the gold comparison (strictly
higher gold wins, ties draw) at the forced end, and no winner before the
cutoff while both territories are positive. -/
theorem check_winner_spec (s : MatchState) (e : Bool) :
    (s.p1.territory = 0 ∧ s.p2.territory = 0 → check_winner s e = some "draw") ∧
    (s.p1.territory = 0 ∧ s.p2.territory ≠ 0 → check_winner s e = some "player2") ∧
    (s.p1.territory ≠ 0 ∧ s.p2.territory = 0 → check_winner s e = some "player1") ∧
    (s.p1.territory ≠ 0 ∧ s.p2.territory ≠ 0 →
      (check_winner s true =
        if s.p1.gold = s.p2.gold then some "draw"
        else if s.p1.gold > s.p2.gold then some "player1"
        else some "player2") ∧
      check_winner s false = none) := by
  simp only [check_winner]
  refine ⟨?_, ?_, ?_, ?_⟩
  · rintro ⟨h1, h2⟩
    simp [h1, h2]
  · rintro ⟨h1, h2⟩
    simp [h1, h2]
  · rintro ⟨h1, h2⟩
    simp [h1, h2]
  · rintro ⟨h1, h2⟩
    simp [h1, h2]

/-- Witness for C8: gold 100 versus 50 at the forced end, both territories
positive, gives `player1`; before the cutoff no winner is declared. -/
theorem check_winner_spec_witness :
    sGold.p1.territory ≠ 0 ∧ sGold.p2.territory ≠ 0 ∧
    ((check_winner sGold true =
        if sGold.p1.gold = sGold.p2.gold then some "draw"
        else if sGold.p1.gold > sGold.p2.gold then some "player1"
        else some "player2") ∧
      check_winner sGold false = none) :=
  ⟨by decide, by decide, (check_winner_spec sGold true).2.2.2 ⟨by decide, by decide⟩⟩

/-! ### Upkeep -/

/-- The liquidation loop only ever touches defense once attack is gone:
its result has zero attack units, or the defense count it was given back
unchanged; units only decrease and never go negative. -/
theorem upkeep_loop_attack_first (cfg : GameSettings) (fuel : Nat)
    (deficit gold attack defense : Int) (ha : 0 ≤ attack) (hd : 0 ≤ defense) :
    ((upkeep_loop cfg fuel deficit gold attack defense).2.1 = 0 ∨
      (upkeep_loop cfg fuel deficit gold attack defense).2.2 = defense) ∧
    0 ≤ (upkeep_loop cfg fuel deficit gold attack defense).2.1 ∧
    0 ≤ (upkeep_loop cfg fuel deficit gold attack defense).2.2 ∧
    (upkeep_loop cfg fuel deficit gold attack defense).2.1 ≤ attack ∧
    (upkeep_loop cfg fuel deficit gold attack defense).2.2 ≤ defense := by
  induction fuel generalizing deficit gold attack defense with
  | zero => exact ⟨Or.inr rfl, ha, hd, le_refl _, le_refl _⟩
  | succ f ih =>
    simp only [upkeep_loop]
    split
    · rename_i hcond
      split
      · rename_i hatk
        have h := ih (deficit - (cfg.MAINT_ATK : Int)) (gold + (cfg.MAINT_ATK : Int))
          (attack - 1) defense (by omega) hd
        exact ⟨h.1, h.2.1, h.2.2.1, by omega, h.2.2.2.2⟩
      · rename_i hatk
        have h := ih (deficit - (cfg.MAINT_DEF : Int)) (gold + (cfg.MAINT_DEF : Int))
          attack (defense - 1) ha (by omega)
        exact ⟨Or.inl (by omega), h.2.1, h.2.2.1, h.2.2.2.1, by omega⟩
    · exact ⟨Or.inr rfl, ha, hd, le_refl _, le_refl _⟩

/-- Claim C3: for a state with non-negative gold, attack and defense,
`apply_upkeep` leaves gold non-negative (clamping absorbs any residual
deficit without error), and liquidates attack units strictly before
defense units: either no attack units remain, or no defense unit was
touched at all; unit counts only decrease and never go negative. -/
theorem apply_upkeep_spec (cfg : GameSettings) (p : PlayerState)
    (hg : 0 ≤ p.gold) (ha : 0 ≤ p.attack) (hd : 0 ≤ p.defense) :
    0 ≤ (p.apply_upkeep cfg).gold ∧
    ((p.apply_upkeep cfg).attack = 0 ∨ (p.apply_upkeep cfg).defense = p.defense) ∧
    0 ≤ (p.apply_upkeep cfg).attack ∧
    0 ≤ (p.apply_upkeep cfg).defense ∧
    (p.apply_upkeep cfg).attack ≤ p.attack ∧
    (p.apply_upkeep cfg).defense ≤ p.defense := by
  simp only [PlayerState.apply_upkeep]
  split
  · rename_i hpos
    exact ⟨hpos, Or.inr rfl, ha, hd, le_refl _, le_refl _⟩
  · have h := upkeep_loop_attack_first cfg (p.attack + p.defense).toNat
      (-(p.gold - p.upkeep_cost cfg)) (p.gold - p.upkeep_cost cfg) p.attack p.defense ha hd
    refine ⟨?_, h.1, h.2.1, h.2.2.1, h.2.2.2.1, h.2.2.2.2⟩
    dsimp only
    split <;> omega

/-- Witness for C3 at the scenario of `test_upkeep_auto_demobilise`:
gold 2, attack 3, defense 2 under the default rates. -/
theorem apply_upkeep_spec_witness :
    0 ≤ pUpkeep.gold ∧ 0 ≤ pUpkeep.attack ∧ 0 ≤ pUpkeep.defense ∧
    (0 ≤ (pUpkeep.apply_upkeep cfg0).gold ∧
    ((pUpkeep.apply_upkeep cfg0).attack = 0 ∨
      (pUpkeep.apply_upkeep cfg0).defense = pUpkeep.defense) ∧
    0 ≤ (pUpkeep.apply_upkeep cfg0).attack ∧
    0 ≤ (pUpkeep.apply_upkeep cfg0).defense ∧
    (pUpkeep.apply_upkeep cfg0).attack ≤ pUpkeep.attack ∧
    (pUpkeep.apply_upkeep cfg0).defense ≤ pUpkeep.defense) :=
  ⟨by decide, by decide, by decide,
   apply_upkeep_spec cfg0 pUpkeep (by decide) (by decide) (by decide)⟩

/-! ### Order-independence of command application -/

/-- Claim C9: command application touches only the acting player's state
and leaves the neutral pool untouched, so the two per-player applications
commute: either order yields the same match state, and hence the same
subsequent allocation outcome. -/
theorem apply_commands_order_independent (cfg : GameSettings) (s : MatchState)
    (cmd1 cmd2 : Command) :
    apply_both_p1_first cfg s cmd1 cmd2 = apply_both_p2_first cfg s cmd1 cmd2 ∧
    (apply_both_p1_first cfg s cmd1 cmd2).p1 = apply_commands cfg s.p1 cmd1 ∧
    (apply_both_p1_first cfg s cmd1 cmd2).p2 = apply_commands cfg s.p2 cmd2 ∧
    (apply_both_p1_first cfg s cmd1 cmd2).neutral_territory = s.neutral_territory ∧
    allocate_neutral (apply_both_p1_first cfg s cmd1 cmd2) =
      allocate_neutral (apply_both_p2_first cfg s cmd1 cmd2) :=
  ⟨rfl, rfl, rfl, rfl, rfl⟩

/-! ### Command sanitization and resource safety -/

/-- Selling units never drives gold, attack or defense negative: the unit
count is clamped to the units held and the refund is non-negative. -/
theorem refund_attack_nonneg (cfg : GameSettings) (p : PlayerState) (u : Int)
    (hg : 0 ≤ p.gold) (ha : 0 ≤ p.attack) (hd : 0 ≤ p.defense) :
    0 ≤ (p.refund_attack cfg u).1.gold ∧ 0 ≤ (p.refund_attack cfg u).1.attack ∧
    0 ≤ (p.refund_attack cfg u).1.defense := by
  have hprod : (0 : Int) ≤ max 0 (min u p.attack) * ((cfg.ATK_BASE / 2 : Nat) : Int) :=
    mul_nonneg (le_max_left 0 _) (Int.natCast_nonneg _)
  refine ⟨?_, ?_, hd⟩
  · show 0 ≤ p.gold + max 0 (min u p.attack) * ((cfg.ATK_BASE / 2 : Nat) : Int)
    omega
  · show 0 ≤ p.attack - max 0 (min u p.attack)
    omega

/-- As `refund_attack_nonneg`, for defense sales. -/
theorem refund_defense_nonneg (cfg : GameSettings) (p : PlayerState) (u : Int)
    (hg : 0 ≤ p.gold) (ha : 0 ≤ p.attack) (hd : 0 ≤ p.defense) :
    0 ≤ (p.refund_defense cfg u).1.gold ∧ 0 ≤ (p.refund_defense cfg u).1.attack ∧
    0 ≤ (p.refund_defense cfg u).1.defense := by
  have hprod : (0 : Int) ≤ max 0 (min u p.defense) * ((cfg.DEF_BASE / 2 : Nat) : Int) :=
    mul_nonneg (le_max_left 0 _) (Int.natCast_nonneg _)
  refine ⟨?_, ha, ?_⟩
  · show 0 ≤ p.gold + max 0 (min u p.defense) * ((cfg.DEF_BASE / 2 : Nat) : Int)
    omega
  · show 0 ≤ p.defense - max 0 (min u p.defense)
    omega

/-- The expansion-payment loop only spends gold the player holds, so gold
stays non-negative. -/
theorem pay_loop_gold_nonneg (cfg : GameSettings) (et : Int) :
    ∀ (n bought : Nat) (gold : Int), 0 ≤ gold → 0 ≤ (pay_loop cfg et n bought gold).2 := by
  intro n
  induction n with
  | zero => intro bought gold hg; exact hg
  | succ m ih =>
    intro bought gold hg
    simp only [pay_loop]
    split
    · exact hg
    · rename_i hcost
      exact ih (bought + 1) _ (sub_nonneg.mpr (le_of_not_lt hcost))

/-- The military buying loops never grow the attack count downward and
never spend beyond the gold limit they were given. -/
theorem buy_attack_loop_bound (cfg : GameSettings) :
    ∀ (fuel : Nat) (attack spent gl : Int),
      attack ≤ (buy_attack_loop cfg fuel attack spent gl).1 ∧
      ((buy_attack_loop cfg fuel attack spent gl).2 = spent ∨
        (buy_attack_loop cfg fuel attack spent gl).2 ≤ gl) := by
  intro fuel
  induction fuel with
  | zero => intro attack spent gl; exact ⟨le_refl _, Or.inl rfl⟩
  | succ f ih =>
    intro attack spent gl
    simp only [buy_attack_loop]
    split
    · rename_i hcond
      obtain ⟨h1, h2⟩ := ih (attack + 1) (spent + attack_price cfg attack) gl
      refine ⟨le_trans (by omega) h1, Or.inr ?_⟩
      rcases h2 with h2 | h2
      · rw [h2]; linarith
      · exact h2
    · exact ⟨le_refl _, Or.inl rfl⟩

/-- As `buy_attack_loop_bound`, for the defense loop. -/
theorem buy_defense_loop_bound (cfg : GameSettings) :
    ∀ (fuel : Nat) (defense spent gl : Int),
      defense ≤ (buy_defense_loop cfg fuel defense spent gl).1 ∧
      ((buy_defense_loop cfg fuel defense spent gl).2 = spent ∨
        (buy_defense_loop cfg fuel defense spent gl).2 ≤ gl) := by
  intro fuel
  induction fuel with
  | zero => intro defense spent gl; exact ⟨le_refl _, Or.inl rfl⟩
  | succ f ih =>
    intro defense spent gl
    simp only [buy_defense_loop]
    split
    · rename_i hcond
      obtain ⟨h1, h2⟩ := ih (defense + 1) (spent + defense_price cfg defense) gl
      refine ⟨le_trans (by omega) h1, Or.inr ?_⟩
      rcases h2 with h2 | h2
      · rw [h2]; linarith
      · exact h2
    · exact ⟨le_refl _, Or.inl rfl⟩

/-- `buy_attack` keeps the three guarded resources non-negative when the
gold limit does not exceed the gold held. -/
theorem buy_attack_nonneg (cfg : GameSettings) (p : PlayerState) (gl : Int)
    (hgl : gl ≤ p.gold) (hg : 0 ≤ p.gold) (ha : 0 ≤ p.attack) (hd : 0 ≤ p.defense) :
    0 ≤ (p.buy_attack cfg gl).1.gold ∧ 0 ≤ (p.buy_attack cfg gl).1.attack ∧
    0 ≤ (p.buy_attack cfg gl).1.defense := by
  obtain ⟨h1, h2⟩ := buy_attack_loop_bound cfg (gl.toNat + 1) p.attack 0 gl
  refine ⟨?_, ?_, hd⟩
  · show 0 ≤ p.gold - (buy_attack_loop cfg (gl.toNat + 1) p.attack 0 gl).2
    rcases h2 with h2 | h2 <;> omega
  · show 0 ≤ (buy_attack_loop cfg (gl.toNat + 1) p.attack 0 gl).1
    omega

/-- As `buy_attack_nonneg`, for `buy_defense`. -/
theorem buy_defense_nonneg (cfg : GameSettings) (p : PlayerState) (gl : Int)
    (hgl : gl ≤ p.gold) (hg : 0 ≤ p.gold) (ha : 0 ≤ p.attack) (hd : 0 ≤ p.defense) :
    0 ≤ (p.buy_defense cfg gl).1.gold ∧ 0 ≤ (p.buy_defense cfg gl).1.attack ∧
    0 ≤ (p.buy_defense cfg gl).1.defense := by
  obtain ⟨h1, h2⟩ := buy_defense_loop_bound cfg (gl.toNat + 1) p.defense 0 gl
  refine ⟨?_, ha, ?_⟩
  · show 0 ≤ p.gold - (buy_defense_loop cfg (gl.toNat + 1) p.defense 0 gl).2
    rcases h2 with h2 | h2 <;> omega
  · show 0 ≤ (buy_defense_loop cfg (gl.toNat + 1) p.defense 0 gl).1
    omega

/-- The guarded sale step of `_apply_commands` (attack). -/
theorem sell_attack_step_nonneg (cfg : GameSettings) (p : PlayerState) (u : Int)
    (hg : 0 ≤ p.gold) (ha : 0 ≤ p.attack) (hd : 0 ≤ p.defense) :
    0 ≤ (if u ≠ 0 then (p.refund_attack cfg u).1 else p).gold ∧
    0 ≤ (if u ≠ 0 then (p.refund_attack cfg u).1 else p).attack ∧
    0 ≤ (if u ≠ 0 then (p.refund_attack cfg u).1 else p).defense := by
  split
  · exact refund_attack_nonneg cfg p u hg ha hd
  · exact ⟨hg, ha, hd⟩

/-- The guarded sale step of `_apply_commands` (defense). -/
theorem sell_defense_step_nonneg (cfg : GameSettings) (p : PlayerState) (u : Int)
    (hg : 0 ≤ p.gold) (ha : 0 ≤ p.attack) (hd : 0 ≤ p.defense) :
    0 ≤ (if u ≠ 0 then (p.refund_defense cfg u).1 else p).gold ∧
    0 ≤ (if u ≠ 0 then (p.refund_defense cfg u).1 else p).attack ∧
    0 ≤ (if u ≠ 0 then (p.refund_defense cfg u).1 else p).defense := by
  split
  · exact refund_defense_nonneg cfg p u hg ha hd
  · exact ⟨hg, ha, hd⟩

/-- `pay_for_expands` only changes gold (downward, but never below zero)
and the pending bid. -/
theorem pay_for_expands_nonneg (cfg : GameSettings) (p : PlayerState) (w : Int)
    (hg : 0 ≤ p.gold) (ha : 0 ≤ p.attack) (hd : 0 ≤ p.defense) :
    0 ≤ (p.pay_for_expands cfg w).1.gold ∧ 0 ≤ (p.pay_for_expands cfg w).1.attack ∧
    0 ≤ (p.pay_for_expands cfg w).1.defense := by
  refine ⟨?_, ha, hd⟩
  show 0 ≤ (pay_loop cfg p.expanded_total w.toNat 0 p.gold).2
  exact pay_loop_gold_nonneg cfg p.expanded_total w.toNat 0 p.gold hg

/-- The scouting step of `_apply_commands` deducts only when affordable, so
it keeps the resources non-negative. -/
theorem scout_step_nonneg (cfg : GameSettings) (p : PlayerState) (b : Bool)
    (hg : 0 ≤ p.gold) (ha : 0 ≤ p.attack) (hd : 0 ≤ p.defense) :
    0 ≤ (if b then
          (if p.gold ≥ (cfg.SCOUT_COST : Int) then
            { p with gold := p.gold - (cfg.SCOUT_COST : Int) } else p)
        else p).gold ∧
    0 ≤ (if b then
          (if p.gold ≥ (cfg.SCOUT_COST : Int) then
            { p with gold := p.gold - (cfg.SCOUT_COST : Int) } else p)
        else p).attack ∧
    0 ≤ (if b then
          (if p.gold ≥ (cfg.SCOUT_COST : Int) then
            { p with gold := p.gold - (cfg.SCOUT_COST : Int) } else p)
        else p).defense := by
  split
  · split
    · rename_i hcost
      refine ⟨?_, ha, hd⟩
      show 0 ≤ p.gold - (cfg.SCOUT_COST : Int)
      omega
    · exact ⟨hg, ha, hd⟩
  · exact ⟨hg, ha, hd⟩

/-- Claim C10: `_apply_commands` sanitizes its numeric inputs — running a
raw command equals running the command with every numeric field clamped at
zero — a sale is clamped to the units actually held and refunds half the
base price per unit actually sold, and command application never makes
gold, attack or defense negative. -/
theorem apply_commands_safe (cfg : GameSettings) (p : PlayerState) (cmd : Command) (u : Int)
    (hg : 0 ≤ p.gold) (ha : 0 ≤ p.attack) (hd : 0 ≤ p.defense) :
    apply_commands cfg p cmd = apply_commands cfg p cmd.sanitized ∧
    (p.refund_attack cfg u).1.attack = p.attack - max 0 (min u p.attack) ∧
    (p.refund_attack cfg u).1.gold =
      p.gold + max 0 (min u p.attack) * ((cfg.ATK_BASE / 2 : Nat) : Int) ∧
    (p.refund_defense cfg u).1.defense = p.defense - max 0 (min u p.defense) ∧
    (p.refund_defense cfg u).1.gold =
      p.gold + max 0 (min u p.defense) * ((cfg.DEF_BASE / 2 : Nat) : Int) ∧
    0 ≤ (apply_commands cfg p cmd).gold ∧
    0 ≤ (apply_commands cfg p cmd).attack ∧
    0 ≤ (apply_commands cfg p cmd).defense := by
  have hclamp : ∀ x : Int, max 0 (max 0 x) = max 0 x := fun x => by omega
  have e1 : cmd.sanitized.sell_attack = max 0 cmd.sell_attack := rfl
  have e2 : cmd.sanitized.sell_defense = max 0 cmd.sell_defense := rfl
  have e3 : cmd.sanitized.expand = max 0 cmd.expand := rfl
  have e4 : cmd.sanitized.spend_attack = max 0 cmd.spend_attack := rfl
  have e5 : cmd.sanitized.spend_defense = max 0 cmd.spend_defense := rfl
  have e6 : cmd.sanitized.scout = cmd.scout := rfl
  have hsan : apply_commands cfg p cmd = apply_commands cfg p cmd.sanitized := by
    simp only [apply_commands, e1, e2, e3, e4, e5, e6, hclamp]
  obtain ⟨g1, a1, d1⟩ := sell_attack_step_nonneg cfg p (max 0 cmd.sell_attack) hg ha hd
  obtain ⟨g2, a2, d2⟩ := sell_defense_step_nonneg cfg _ (max 0 cmd.sell_defense) g1 a1 d1
  obtain ⟨g3, a3, d3⟩ := pay_for_expands_nonneg cfg _ (max 0 cmd.expand) g2 a2 d2
  obtain ⟨g4, a4, d4⟩ := scout_step_nonneg cfg _ cmd.scout g3 a3 d3
  obtain ⟨g5, a5, d5⟩ := buy_attack_nonneg cfg _ _ (min_le_right _ _) g4 a4 d4
  obtain ⟨g6, a6, d6⟩ := buy_defense_nonneg cfg _ _ (min_le_right _ _) g5 a5 d5
  exact ⟨hsan, rfl, rfl, rfl, rfl, g6, a6, d6⟩

/-- Witness for C10 at the default configuration, a fresh player, an
all-negative command, and a sell request of 7 units. -/
theorem apply_commands_safe_witness :
    0 ≤ player0.gold ∧ 0 ≤ player0.attack ∧ 0 ≤ player0.defense ∧
    (apply_commands cfg0 player0 cmdNeg = apply_commands cfg0 player0 cmdNeg.sanitized ∧
    (player0.refund_attack cfg0 7).1.attack = player0.attack - max 0 (min 7 player0.attack) ∧
    (player0.refund_attack cfg0 7).1.gold =
      player0.gold + max 0 (min 7 player0.attack) * ((cfg0.ATK_BASE / 2 : Nat) : Int) ∧
    (player0.refund_defense cfg0 7).1.defense =
      player0.defense - max 0 (min 7 player0.defense) ∧
    (player0.refund_defense cfg0 7).1.gold =
      player0.gold + max 0 (min 7 player0.defense) * ((cfg0.DEF_BASE / 2 : Nat) : Int) ∧
    0 ≤ (apply_commands cfg0 player0 cmdNeg).gold ∧
    0 ≤ (apply_commands cfg0 player0 cmdNeg).attack ∧
    0 ≤ (apply_commands cfg0 player0 cmdNeg).defense) :=
  ⟨by decide, by decide, by decide,
   apply_commands_safe cfg0 player0 cmdNeg 7 (by decide) (by decide) (by decide)⟩

/-! ### Orchestrator: termination, error recovery, history, intel -/

/-- At the forced end, `_check_winner` always names a result. -/
theorem check_winner_end_total (s : MatchState) :
    check_winner s true = some "player1" ∨ check_winner s true = some "player2" ∨
    check_winner s true = some "draw" := by
  unfold check_winner
  split_ifs <;> simp_all

/-- `_play_turn` leaves the turn counter alone; only `run` advances it. -/
theorem play_turn_turn (cfg : GameSettings) (pol1 pol2 : Policy) (s : MatchState) :
    (play_turn cfg pol1 pol2 s).turn = s.turn := rfl

/-- The match loop never pushes the turn counter past the cutoff. -/
theorem run_loop_turn_le (cfg : GameSettings) (pol1 pol2 : Policy) :
    ∀ (fuel : Nat) (s : MatchState), s.turn ≤ cfg.MAX_TURNS →
      (run_loop cfg pol1 pol2 fuel s).turn ≤ cfg.MAX_TURNS := by
  intro fuel
  induction fuel with
  | zero => intro s h; exact h
  | succ f ih =>
    intro s h
    simp only [run_loop]
    split
    · rename_i hlt
      split
      · rw [play_turn_turn]; exact hlt
      · exact ih _ (by rw [play_turn_turn]; exact hlt)
    · exact h

/-- When both strategy `reset` calls return normally, the engine always
completes for arbitrary `step` behaviour — including a `step` that raises
or returns a non-mapping on every turn: `run` yields a result whose winner
is `player1`, `player2` or `draw`, after at most `MAX_TURNS` turns. -/
theorem run_completes_when_resets_succeed (cfg : GameSettings) (pol1 pol2 : Policy)
    (h1 : pol1.reset_ok (observation cfg (Engine.reset cfg) 1) = true)
    (h2 : pol2.reset_ok (observation cfg (Engine.reset cfg) 2) = true) :
    Engine.run cfg pol1 pol2 =
      Except.ok (Engine.result (run_loop cfg pol1 pol2 cfg.MAX_TURNS (Engine.reset cfg)) true) ∧
    ((Engine.result (run_loop cfg pol1 pol2 cfg.MAX_TURNS (Engine.reset cfg)) true).winner =
        some "player1" ∨
      (Engine.result (run_loop cfg pol1 pol2 cfg.MAX_TURNS (Engine.reset cfg)) true).winner =
        some "player2" ∨
      (Engine.result (run_loop cfg pol1 pol2 cfg.MAX_TURNS (Engine.reset cfg)) true).winner =
        some "draw") ∧
    (Engine.result (run_loop cfg pol1 pol2 cfg.MAX_TURNS (Engine.reset cfg)) true).turns ≤
      cfg.MAX_TURNS := by
  refine ⟨?_, ?_, ?_⟩
  · simp only [Engine.run, h1, h2, if_true]
  · exact check_winner_end_total (run_loop cfg pol1 pol2 cfg.MAX_TURNS (Engine.reset cfg))
  · exact run_loop_turn_le cfg pol1 pol2 cfg.MAX_TURNS (Engine.reset cfg) (Nat.zero_le _)

/-- Claim C6 (code divergence): exceptions and non-mapping returns from
`step` are indeed absorbed by `_safe_step` as the empty command, but the
two strategy `reset` calls in `run` are outside any `try/except`, so a
policy that raises on every call raises inside its `reset` call before the
first turn, the exception propagates out of `run`, and no result is
produced. -/
theorem run_raises_on_raising_reset :
    safe_step StepOutcome.raises = ({} : Command) ∧
    safe_step StepOutcome.nonMapping = ({} : Command) ∧
    Engine.run cfg0 crashPolicy crashPolicy = Except.error () :=
  ⟨rfl, rfl, rfl⟩

/-- Claim C4 (code divergence): `_play_turn` never appends a history
snapshot — the history after a completed turn is exactly the history
before it, so after any number of turns it still holds only the single
snapshot recorded by `reset`. -/
theorem play_turn_appends_no_snapshot (cfg : GameSettings) (pol1 pol2 : Policy)
    (s : MatchState) :
    (play_turn cfg pol1 pol2 s).history = s.history ∧
    (Engine.reset cfg).history.length = 1 :=
  ⟨rfl, rfl⟩

/-- Claim C5 (code divergence): a scout request the player cannot afford
deducts nothing — after income the poor player holds 5 gold, below the
scout cost of 20, and still holds 5 after the turn — yet the intel flag
for the next turn is set anyway, because `_play_turn` copies the raw
`scout` field of the command. -/
theorem scout_intel_without_payment :
    sPoor.p1.gold + sPoor.p1.income cfg0 < (cfg0.SCOUT_COST : Int) ∧
    (play_turn cfg0 scoutPolicy scoutPolicy sPoor).p1.gold = 5 ∧
    (play_turn cfg0 scoutPolicy scoutPolicy sPoor).p1.has_enemy_intel = true := by
  decide

end Autork
